import Mathlib

/-!
Shallow embedding of `src/main.py` from the radar-gps repository: a Qt
utility that loads SEG-Y seismic files, plots them, optionally watches a
folder for newly created `.sgy` files, and tags processed files with a GPS
fix read from a serial GNSS receiver.

External libraries (segyio, watchdog, pygnssutils, Qt, matplotlib) are
modelled by their observable interface: a SEG-Y file is a trace count plus
per-trace sample arrays; the GNSS stream either raises or returns a data
object with optional `lat`/`lon` attributes; GUI dialogs and console
prints are recorded as an ordered effect trace; the filesystem is an
environment predicate.  Floating-point amplitudes and coordinates are
modelled as rationals.
-/

namespace RadarGps

/-- A SEG-Y file as exposed by the parsing library (segyio): a trace count
from the file header (`f.tracecount`) and the sample array of each trace
(`f.trace[i]`). -/
structure SegyFile where
  tracecount : Nat
  trace : Nat → List Rat

/-- The filesystem as seen by `segyio.open`: for each path, either the
parsed file or the exception message raised on failure. -/
def SegyFS := String → Except String SegyFile

/-- Embedding of `get_data_from_file` (src/main.py:207-211): opens the file and returns
`np.asarray([f.trace[i] for i in range(0, f.tracecount)])`; an exception
from `segyio.open` propagates to the caller. -/
def get_data_from_file (fs : SegyFS) (file_path : String) :
    Except String (List (List Rat)) :=
  match fs file_path with
  | .error e => .error e
  | .ok f => .ok ((List.range f.tracecount).map fun i => f.trace i)

/-- Python's `str.endswith`, on the underlying character sequence. -/
def pyEndsWith (s suffix : String) : Bool :=
  suffix.data.isSuffixOf s.data

/-- Embedding of `SGYStartHandler.on_created` (src/main.py:24-27): if the created path
ends with `".sgy"`, print a message and invoke the callback with the path.
Returns the callback invocation (if any) and the console output. -/
def on_created (src_path : String) : Option String × List String :=
  if pyEndsWith src_path ".sgy" then
    (some src_path, ["New SGY file detected: " ++ src_path])
  else
    (none, [])

/-- The SEG-Y extensions accepted by the file-open dialog filter
`"SEG-Y Files (*.sgy *.segy *.SGY);;All Files (*)"` (src/main.py:167). -/
def segyDialogFilterExtensions : List String := [".sgy", ".segy", ".SGY"]

/-- The data object returned by `streamer.get_coordinates()`: `lat`/`lon`
are `some` exactly when `hasattr(data, 'lat')` / `hasattr(data, 'lon')`. -/
structure GnssData where
  lat : Option Rat
  lon : Option Rat

/-- One execution of the GPS read path: either some step (`serial.Serial`,
the `GNSSStreamer`, or `get_coordinates`) raises, or a data object is
returned. -/
inductive GpsRead where
  | raises (msg : String)
  | returns (data : GnssData)

/-- Embedding of `get_current_location` (src/main.py:228-242): returns the coordinate
pair together with the console output.  On any exception it prints an
error and returns `(0.0, 0.0)`; on a data object lacking `lat` or `lon`
it prints `print(data)` then `"No valid GPS data received"` and returns
`(0.0, 0.0)`; otherwise it returns `(data.lat, data.lon)`. -/
def get_current_location : GpsRead → (Rat × Rat) × List String
  | .raises msg => ((0, 0), ["Error getting GPS coordinates: " ++ msg])
  | .returns d =>
    match d.lat, d.lon with
    | some la, some lo => ((la, lo), ["<coordinates data>"])
    | _, _ => ((0, 0), ["<coordinates data>", "No valid GPS data received"])

/-- Model of `os.path.basename`: the part of the path after the last `/`. -/
def basename (p : String) : String :=
  String.mk ((p.data.reverse.takeWhile (fun c => c ≠ '/')).reverse)

/-- Python's `":.6f"` float formatting, abstracted as decimal rendering of
the rational coordinate (no claim inspects the digits). -/
def formatCoord (x : Rat) : String := toString x

/-- An observable GUI / console effect, in the order it is performed. -/
inductive Effect where
  | warnDialog (title msg : String)
  | criticalDialog (title msg : String)
  | statusMessage (msg : String) (timeout : Nat)
  | consolePrint (msg : String)
  | setFileText (text : String)
  | canvasDraw
  deriving DecidableEq

/-- A `FolderWatcher` object (src/main.py:30-57): the folder it was
constructed on and whether its observer loop is still running. -/
structure Watcher where
  folder : String
  running : Bool
  deriving DecidableEq

/-- Embedding of `FolderWatcher.stop` (src/main.py:51-54): stops the observer loop. -/
def Watcher.stop (w : Watcher) : Watcher := { w with running := false }

/-- The environment of a GUI event: `os.path.exists` at that moment. -/
structure Env where
  pathExists : String → Bool

/-- The state of `MainWindow` observable through the claims: the loaded
trace matrix `self.data`, the text fields, the watch checkbox, the enabled
flags of the three folder controls, every `FolderWatcher` ever constructed
(newest first, so the head is `self.watcher`; the empty list is
`self.watcher = None`), and the matrix currently rendered on the figure. -/
structure WinState where
  data : Option (List (List Rat))
  filePathText : String
  watchFolder : String
  folderPathText : String
  watchChecked : Bool
  folderPathEnabled : Bool
  folderBrowseEnabled : Bool
  folderLabelEnabled : Bool
  watchers : List Watcher
  figure : Option (List (List Rat))
  deriving DecidableEq

/-- Embedding of `MainWindow.__init__` (src/main.py:61-114) with working directory
`cwd`: no data, watch folder `cwd/data`, checkbox unchecked, all folder
controls enabled, no watcher, blank figure. -/
def initState (cwd : String) : WinState where
  data := none
  filePathText := ""
  watchFolder := cwd ++ "/data"
  folderPathText := cwd ++ "/data"
  watchChecked := false
  folderPathEnabled := true
  folderBrowseEnabled := true
  folderLabelEnabled := true
  watchers := []
  figure := none

/-- Embedding of `MainWindow.plot` (src/main.py:116-131): with no data, warn and return;
otherwise clear the figure, render the matrix and redraw the canvas. -/
def plot (st : WinState) : WinState × List Effect :=
  match st.data with
  | none => (st, [.warnDialog "No Data" "Please load a SEG-Y file first."])
  | some d => ({ st with figure := some d }, [.canvasDraw])

/-- Embedding of `MainWindow.stop_watching` (src/main.py:160-163): if `self.watcher` is
set, stop it and print. -/
def stop_watching (st : WinState) : WinState × List Effect :=
  match st.watchers with
  | [] => (st, [])
  | w :: ws =>
    ({ st with watchers := w.stop :: ws },
     [.consolePrint "Stopped watching folder"])

/-- The unchecked branch of `MainWindow.toggle_watching`
(src/main.py:139-143): stop watching and re-enable the three folder
controls. -/
def toggle_unchecked (st : WinState) : WinState × List Effect :=
  let (st1, tr1) := stop_watching st
  ({ st1 with folderPathEnabled := true, folderBrowseEnabled := true,
              folderLabelEnabled := true }, tr1)

/-- Model of Qt's `QCheckBox.setChecked(False)` (src/main.py:152): if the box is
currently checked, uncheck it; `stateChanged` then fires synchronously and
runs the unchecked branch of `toggle_watching`. -/
def setCheckedFalse (st : WinState) : WinState × List Effect :=
  if st.watchChecked then
    toggle_unchecked { st with watchChecked := false }
  else
    (st, [])

/-- Embedding of `MainWindow.start_watching` (src/main.py:145-158): if the watch folder
does not exist, warn, reset the checkbox and return; otherwise construct a
new running `FolderWatcher` on the folder, connect its signal and start
it. -/
def start_watching (env : Env) (st : WinState) : WinState × List Effect :=
  if env.pathExists st.watchFolder then
    ({ st with watchers := { folder := st.watchFolder, running := true } :: st.watchers },
     [.consolePrint ("Started watching folder: " ++ st.watchFolder)])
  else
    let (st1, tr1) := setCheckedFalse st
    (st1,
     .warnDialog "Invalid Folder"
       ("The selected folder does not exist: " ++ st.watchFolder) :: tr1)

/-- Embedding of `MainWindow.toggle_watching` (src/main.py:133-143): on state 2
(checked) start watching then disable the three folder controls; otherwise
stop watching and re-enable them. -/
def toggle_watching (env : Env) (st : WinState) (state : Nat) :
    WinState × List Effect :=
  if state = 2 then
    let (st1, tr1) := start_watching env st
    ({ st1 with folderPathEnabled := false, folderBrowseEnabled := false,
                folderLabelEnabled := false }, tr1)
  else
    toggle_unchecked st

/-- A user click on the watch checkbox: the checked state flips and
`stateChanged` delivers the new state (2 when checked) to
`toggle_watching` (src/main.py:96-97). -/
def clickWatchCheckbox (env : Env) (st : WinState) : WinState × List Effect :=
  if st.watchChecked then
    toggle_watching env { st with watchChecked := false } 0
  else
    toggle_watching env { st with watchChecked := true } 2

/-- Embedding of `MainWindow.load_segy_file` (src/main.py:185-195): try to read the
file into `self.data` and show a status message; on any exception show a
critical dialog and set `self.data = None`. -/
def load_segy_file (fs : SegyFS) (st : WinState) (file_path : String) :
    WinState × List Effect :=
  match get_data_from_file fs file_path with
  | .ok d =>
    ({ st with data := some d },
     [.statusMessage ("Loaded: " ++ file_path) 3000])
  | .error e =>
    ({ st with data := none },
     [.criticalDialog "Error Loading File"
        ("Failed to load SEG-Y file: " ++ e)])

/-- Embedding of `MainWindow.browse_segy_file` (src/main.py:165-171): if the file
dialog returns a path, set the file text field and load the file. -/
def browse_segy_file (fs : SegyFS) (st : WinState)
    (dialogResult : Option String) : WinState × List Effect :=
  match dialogResult with
  | none => (st, [])
  | some p =>
    let (st1, tr1) := load_segy_file fs { st with filePathText := p } p
    (st1, .setFileText p :: tr1)

/-- Embedding of `MainWindow.browse_watch_folder` (src/main.py:173-183): if the folder
dialog returns a path, update the watch folder and its text field; if the
checkbox is checked, stop and restart the watcher. -/
def browse_watch_folder (env : Env) (st : WinState)
    (dialogResult : Option String) : WinState × List Effect :=
  match dialogResult with
  | none => (st, [])
  | some f =>
    let st1 := { st with watchFolder := f, folderPathText := f }
    if st1.watchChecked then
      let (st2, tr2) := stop_watching st1
      let (st3, tr3) := start_watching env st2
      (st3, tr2 ++ tr3)
    else
      (st1, [])

/-- The status-bar effects of the GPS tag in `process_new_file`
(src/main.py:202-204): shown exactly when both coordinates are nonzero. -/
def locationTagEffects (file_path : String) (lat lon : Rat) : List Effect :=
  if lat ≠ 0 ∧ lon ≠ 0 then
    [.statusMessage
      ("File: " ++ basename file_path ++ " | Location: " ++
        formatCoord lat ++ ", " ++ formatCoord lon) 5000]
  else
    []

/-- Embedding of `MainWindow.process_new_file` (src/main.py:197-204), the slot of the
watcher's `new_file_signal`: set the file text field, load the file, plot,
then read the GPS location and tag the status bar when both coordinates
are nonzero. -/
def process_new_file (fs : SegyFS) (gps : GpsRead) (st : WinState)
    (file_path : String) : WinState × List Effect :=
  let (st1, tr1) := load_segy_file fs { st with filePathText := file_path } file_path
  let (st2, tr2) := plot st1
  let ((lat, lon), gpsConsole) := get_current_location gps
  (st2,
   .setFileText file_path :: tr1 ++ tr2 ++
     gpsConsole.map Effect.consolePrint ++ locationTagEffects file_path lat lon)

/-- A GUI event together with the environment at the moment it fires. -/
inductive Event where
  | clickCheckbox (env : Env)
  | browseSegy (fs : SegyFS) (result : Option String)
  | browseFolder (env : Env) (result : Option String)
  | clickPlot
  | newFile (fs : SegyFS) (gps : GpsRead) (path : String)

/-- One GUI event handled by the corresponding slot. -/
def step (st : WinState) : Event → WinState × List Effect
  | .clickCheckbox env => clickWatchCheckbox env st
  | .browseSegy fs result => browse_segy_file fs st result
  | .browseFolder env result => browse_watch_folder env st result
  | .clickPlot => plot st
  | .newFile fs gps path => process_new_file fs gps st path

/-- The states of the main window reachable from start-up (with working
directory `cwd`) through any sequence of GUI events. -/
inductive Reachable (cwd : String) : WinState → Prop where
  | init : Reachable cwd (initState cwd)
  | step (st : WinState) (ev : Event) :
      Reachable cwd st → Reachable cwd (step st ev).1

/-- The watchers of a state whose observer loop is running. -/
def runningWatchers (st : WinState) : List Watcher :=
  st.watchers.filter (fun w => w.running)

/-- The location tags among a trace: the status-bar messages shown for
5000 ms, as only the GPS tag of `process_new_file` is (the load message
uses 3000 ms). -/
def statusTags (tr : List Effect) : List Effect :=
  tr.filter fun e =>
    match e with
    | .statusMessage _ 5000 => true
    | _ => false

/-- The state invariant maintained by the window: every watcher but the
current one (`self.watcher`, the head) is stopped; if the current watcher
is running then its folder is the selected watch folder and the checkbox
is checked; and while the checkbox is checked the three folder controls
are disabled. -/
def Inv (st : WinState) : Prop :=
  (∀ w ∈ st.watchers.tail, w.running = false) ∧
  (∀ w, st.watchers.head? = some w → w.running = true →
    w.folder = st.watchFolder ∧ st.watchChecked = true) ∧
  (st.watchChecked = true →
    st.folderPathEnabled = false ∧ st.folderBrowseEnabled = false ∧
      st.folderLabelEnabled = false)

/-- A two-trace sample SEG-Y file used to exercise the theorems. -/
def sampleFile : SegyFile where
  tracecount := 2
  trace := fun i => if i = 0 then [1, 2] else [3, 4]

/-- A sample filesystem: one parseable file, every other open raises. -/
def sampleFS : SegyFS := fun p =>
  if p = "line1.sgy" then .ok sampleFile else .error "No such file"

/-- The trace matrix of `sampleFile`. -/
def sampleMatrix : List (List Rat) := [[1, 2], [3, 4]]

/-- An environment where every path exists. -/
def envAll : Env := ⟨fun _ => true⟩

/-- An environment where no path exists. -/
def envNone : Env := ⟨fun _ => false⟩

/-- The window state after checking the watch checkbox at start-up with an
existing watch folder. -/
def checkedState : WinState :=
  (step (initState "/home") (.clickCheckbox envAll)).1

/-- The window state after checking the watch checkbox at start-up while
the watch folder does not exist. -/
def failedCheckState : WinState :=
  (step (initState "/home") (.clickCheckbox envNone)).1

/-- The components of the window state that the watching invariant reads:
watchers, watch folder, checkbox, and the three enabled flags. -/
def guiView (st : WinState) :
    List Watcher × String × Bool × Bool × Bool × Bool :=
  (st.watchers, st.watchFolder, st.watchChecked, st.folderPathEnabled,
   st.folderBrowseEnabled, st.folderLabelEnabled)

lemma Inv_of_guiView {st st' : WinState} (h : guiView st' = guiView st)
    (hinv : Inv st) : Inv st' := by
  simp only [guiView, Prod.mk.injEq] at h
  obtain ⟨h1, h2, h3, h4, h5, h6⟩ := h
  unfold Inv at hinv ⊢
  rw [h1, h2, h3, h4, h5, h6]
  exact hinv

lemma guiView_load (fs : SegyFS) (st : WinState) (p : String) :
    guiView (load_segy_file fs st p).1 = guiView st := by
  cases h : get_data_from_file fs p <;> simp [load_segy_file, h, guiView]

lemma guiView_plot (st : WinState) :
    guiView (plot st).1 = guiView st := by
  cases h : st.data <;> simp [plot, h, guiView]

lemma guiView_filePathText (st : WinState) (p : String) :
    guiView { st with filePathText := p } = guiView st := by
  simp [guiView]

lemma guiView_browse_segy (fs : SegyFS) (st : WinState) (r : Option String) :
    guiView (browse_segy_file fs st r).1 = guiView st := by
  cases r with
  | none => rfl
  | some p =>
    show guiView (load_segy_file fs { st with filePathText := p } p).1 = _
    rw [guiView_load, guiView_filePathText]

lemma guiView_process_new_file (fs : SegyFS) (gps : GpsRead)
    (st : WinState) (p : String) :
    guiView (process_new_file fs gps st p).1 = guiView st := by
  rcases hg : get_current_location gps with ⟨⟨lat, lon⟩, console⟩
  show guiView (plot (load_segy_file fs { st with filePathText := p } p).1).1 = _
  rw [guiView_plot, guiView_load, guiView_filePathText]

lemma Inv_initState (cwd : String) : Inv (initState cwd) := by
  refine ⟨?_, ?_, ?_⟩ <;> simp [initState]

lemma Inv_clickCheckbox (env : Env) (st : WinState) (hinv : Inv st) :
    Inv (clickWatchCheckbox env st).1 := by
  obtain ⟨htail, hhead, hctl⟩ := hinv
  by_cases hchk : st.watchChecked = true
  · -- unchecking: stop the current watcher, re-enable the controls
    simp only [clickWatchCheckbox, hchk, if_true, toggle_watching,
      if_neg (by decide : ¬(0 = 2))]
    cases hw : st.watchers with
    | nil => exact ⟨by simp [toggle_unchecked, stop_watching, hw],
        by simp [toggle_unchecked, stop_watching, hw],
        by simp [toggle_unchecked, stop_watching, hw]⟩
    | cons w ws =>
      refine ⟨?_, ?_, ?_⟩
      · intro u hu
        exact htail u (by simpa [toggle_unchecked, stop_watching, hw] using hu)
      · intro u hu hrun
        simp [toggle_unchecked, stop_watching, hw, Watcher.stop] at hu
        rw [← hu] at hrun
        simp at hrun
      · intro hc
        simp [toggle_unchecked, stop_watching, hw] at hc
  · -- checking: start watching, then disable the controls
    have hchk' : st.watchChecked = false := by simpa using hchk
    simp only [clickWatchCheckbox, hchk', if_neg (by simp : ¬(false = true)),
      toggle_watching, if_pos rfl]
    by_cases hex : env.pathExists st.watchFolder = true
    · have hstopped : ∀ w ∈ st.watchers, w.running = false := by
        intro w hw
        cases hws : st.watchers with
        | nil => simp [hws] at hw
        | cons v vs =>
          rw [hws] at hw
          rcases List.mem_cons.1 hw with h | h
          · subst h
            by_contra hr
            have := (hhead w (by simp [hws]) (by simpa using hr)).2
            simp [hchk'] at this
          · exact htail w (by simp [hws, h])
      refine ⟨?_, ?_, ?_⟩
      · intro u hu
        exact hstopped u (by simpa [start_watching, hex] using hu)
      · intro u hu _
        simp [start_watching, hex] at hu
        rw [← hu]
        simp [start_watching, hex]
      · intro _
        simp [start_watching, hex]
    · have hex' : env.pathExists st.watchFolder = false := by simpa using hex
      simp only [start_watching, hex', Bool.false_eq_true, if_false,
        setCheckedFalse]
      cases hw : st.watchers with
      | nil =>
        refine ⟨?_, ?_, ?_⟩ <;>
          simp [toggle_unchecked, stop_watching, hw]
      | cons w ws =>
        refine ⟨?_, ?_, ?_⟩
        · intro u hu
          exact htail u (by simpa [toggle_unchecked, stop_watching, hw] using hu)
        · intro u hu hrun
          simp [toggle_unchecked, stop_watching, hw, Watcher.stop] at hu
          rw [← hu] at hrun
          simp at hrun
        · intro hc
          simp [toggle_unchecked, stop_watching, hw] at hc

lemma Inv_browse_watch_folder (env : Env) (st : WinState)
    (r : Option String) (hinv : Inv st) :
    Inv (browse_watch_folder env st r).1 := by
  obtain ⟨htail, hhead, hctl⟩ := hinv
  cases r with
  | none => exact ⟨htail, hhead, hctl⟩
  | some f =>
    by_cases hchk : st.watchChecked = true
    · -- checked: stop the watcher, then restart it on the new folder
      have hdis := hctl hchk
      simp only [browse_watch_folder, hchk, if_true]
      by_cases hex : env.pathExists f = true
      · cases hw : st.watchers with
        | nil =>
          refine ⟨?_, ?_, ?_⟩ <;>
            simp [stop_watching, start_watching, hw, hex, hchk, hdis.1,
              hdis.2.1, hdis.2.2]
        | cons w ws =>
          refine ⟨?_, ?_, ?_⟩
          · intro u hu
            simp only [stop_watching, hw, start_watching, hex, if_true,
              List.tail_cons] at hu
            rcases List.mem_cons.1 hu with h | h
            · subst h; rfl
            · exact htail u (by simp [hw, h])
          · intro u hu _
            simp only [stop_watching, hw, start_watching, hex, if_true,
              List.head?_cons, Option.some.injEq] at hu ⊢
            rw [← hu]
            exact ⟨rfl, trivial⟩
          · intro _
            simp only [stop_watching, hw, start_watching, hex, if_true]
            exact ⟨hdis.1, hdis.2.1, hdis.2.2⟩
      · have hex' : env.pathExists f = false := by simpa using hex
        cases hw : st.watchers with
        | nil =>
          refine ⟨?_, ?_, ?_⟩ <;>
            simp [stop_watching, start_watching, hw, hex', hchk,
              setCheckedFalse, toggle_unchecked]
        | cons w ws =>
          refine ⟨?_, ?_, ?_⟩
          · intro u hu
            simp only [stop_watching, hw, start_watching, hex',
              Bool.false_eq_true, if_false, setCheckedFalse, hchk, if_true,
              toggle_unchecked] at hu
            simp only [List.tail_cons] at hu
            exact htail u (by simp [hw, hu])
          · intro u hu hrun
            simp only [stop_watching, hw, start_watching, hex',
              Bool.false_eq_true, if_false, setCheckedFalse, hchk, if_true,
              toggle_unchecked, Watcher.stop, List.head?_cons,
              Option.some.injEq] at hu
            rw [← hu] at hrun
            simp at hrun
          · intro hc
            simp only [stop_watching, hw, start_watching, hex',
              Bool.false_eq_true, if_false, setCheckedFalse, hchk, if_true,
              toggle_unchecked] at hc
    · have hchk' : st.watchChecked = false := by simpa using hchk
      simp only [browse_watch_folder, hchk', Bool.false_eq_true, if_false]
      refine ⟨htail, ?_, by simp [hchk']⟩
      intro u hu hrun
      exact absurd ((hhead u hu hrun).2) (by simp [hchk'])

lemma Inv_step (st : WinState) (ev : Event) (hinv : Inv st) :
    Inv (step st ev).1 := by
  cases ev with
  | clickCheckbox env => exact Inv_clickCheckbox env st hinv
  | browseSegy fs r => exact Inv_of_guiView (guiView_browse_segy fs st r) hinv
  | browseFolder env r => exact Inv_browse_watch_folder env st r hinv
  | clickPlot => exact Inv_of_guiView (guiView_plot st) hinv
  | newFile fs gps p =>
    exact Inv_of_guiView (guiView_process_new_file fs gps st p) hinv

lemma reachable_inv (cwd : String) (st : WinState)
    (h : Reachable cwd st) : Inv st := by
  induction h with
  | init => exact Inv_initState cwd
  | step st' ev _ ih => exact Inv_step st' ev ih

lemma not_endsWith_sgy {p suf : String} (hsuf : pyEndsWith p suf = true)
    (hlen : ".sgy".data.length ≤ suf.data.length)
    (hnot : ".sgy".data.isSuffixOf suf.data = false) :
    pyEndsWith p ".sgy" = false := by
  by_contra h
  have h1 : ".sgy".data <:+ p.data :=
    List.isSuffixOf_iff_suffix.1 (by simpa [pyEndsWith] using h)
  have h2 : suf.data <:+ p.data :=
    List.isSuffixOf_iff_suffix.1 (by simpa [pyEndsWith] using hsuf)
  have h3 : ".sgy".data <:+ suf.data :=
    List.suffix_of_suffix_length_le h1 h2 hlen
  rw [← List.isSuffixOf_iff_suffix] at h3
  rw [hnot] at h3
  exact Bool.false_ne_true h3

lemma statusTags_locationTag (p : String) (lat lon : Rat) :
    statusTags (locationTagEffects p lat lon) = locationTagEffects p lat lon := by
  unfold locationTagEffects
  split <;> simp [statusTags]

lemma statusTags_process (fs : SegyFS) (gps : GpsRead) (st : WinState)
    (p : String) :
    statusTags (process_new_file fs gps st p).2 =
      locationTagEffects p (get_current_location gps).1.1
        (get_current_location gps).1.2 := by
  rcases hg : get_current_location gps with ⟨⟨lat, lon⟩, console⟩
  have hmap : statusTags (console.map Effect.consolePrint) = [] := by
    simp [statusTags, List.filter_map]
  have htag := statusTags_locationTag p lat lon
  simp only [statusTags] at hmap htag
  rcases hl : get_data_from_file fs p with e | d <;>
    simp [process_new_file, load_segy_file, hl, hg, plot, statusTags,
      List.filter_append, hmap, htag]

lemma length_filter_cons_le (w : Watcher) (ws : List Watcher) :
    ((ws.filter fun u => u.running).length) ≤
      (((w :: ws).filter fun u => u.running).length) := by
  rw [List.filter_cons]
  split
  · exact Nat.le_succ _
  · exact Nat.le_refl _

/-- C1: on every SEG-Y file the parsing library opens successfully,
`get_data_from_file` returns a matrix with exactly `f.tracecount` rows
whose `i`-th row is the sample array of trace `i`. -/
theorem getData_matches_header (fs : SegyFS) (p : String) (f : SegyFile)
    (h : fs p = .ok f) :
    ∃ m, get_data_from_file fs p = .ok m ∧ m.length = f.tracecount ∧
      ∀ i, i < f.tracecount → m[i]? = some (f.trace i) := by
  refine ⟨(List.range f.tracecount).map f.trace, ?_, by simp, ?_⟩
  · simp [get_data_from_file, h]
  · intro i hi
    simp [List.getElem?_map, List.getElem?_range, hi]

/-- Witness for C1 on the sample filesystem. -/
theorem getData_matches_header_witness :
    ∃ m, get_data_from_file sampleFS "line1.sgy" = .ok m ∧
      m.length = sampleFile.tracecount ∧
      ∀ i, i < sampleFile.tracecount → m[i]? = some (sampleFile.trace i) :=
  getData_matches_header sampleFS "line1.sgy" sampleFile rfl

/-- C2: `get_current_location` returns the fallback `(0.0, 0.0)` with a
console message when the GPS read raises or the data object lacks a `lat`
or `lon` attribute, and `(data.lat, data.lon)` when both are present. -/
theorem gps_fallback_spec :
    (∀ msg, get_current_location (.raises msg) =
      ((0, 0), ["Error getting GPS coordinates: " ++ msg])) ∧
    (∀ d : GnssData, d.lat = none ∨ d.lon = none →
      (get_current_location (.returns d)).1 = (0, 0) ∧
      "No valid GPS data received" ∈ (get_current_location (.returns d)).2) ∧
    (∀ d : GnssData, ∀ la lo, d.lat = some la → d.lon = some lo →
      (get_current_location (.returns d)).1 = (la, lo)) := by
  refine ⟨fun msg => rfl, ?_, ?_⟩
  · rintro ⟨dla, dlo⟩ (h | h) <;> simp only at h <;> subst h
    · simp [get_current_location]
    · cases dla <;> simp [get_current_location]
  · rintro ⟨dla, dlo⟩ la lo h1 h2
    simp only at h1 h2
    subst h1; subst h2
    rfl

/-- Witness for C2 at concrete data objects. -/
theorem gps_fallback_spec_witness :
    (get_current_location (.returns ⟨none, some 7⟩)).1 = (0, 0) ∧
    "No valid GPS data received" ∈
      (get_current_location (.returns ⟨none, some 7⟩)).2 ∧
    (get_current_location (.returns ⟨some 2, some 3⟩)).1 = (2, 3) :=
  ⟨(gps_fallback_spec.2.1 ⟨none, some 7⟩ (Or.inl rfl)).1,
   (gps_fallback_spec.2.1 ⟨none, some 7⟩ (Or.inl rfl)).2,
   gps_fallback_spec.2.2 ⟨some 2, some 3⟩ 2 3 rfl rfl⟩

/-- C3: `load_segy_file` always replaces `self.data` with the result of
the load: the read matrix on success, `None` (plus a critical dialog) on
failure; the previous matrix is never retained. -/
theorem load_replaces_data (fs : SegyFS) (st : WinState) (p : String) :
    (load_segy_file fs st p).1.data = (get_data_from_file fs p).toOption ∧
    (∀ d, get_data_from_file fs p = .ok d →
      (load_segy_file fs st p).1.data = some d) ∧
    (∀ e, get_data_from_file fs p = .error e →
      (load_segy_file fs st p).1.data = none ∧
      (load_segy_file fs st p).2 =
        [.criticalDialog "Error Loading File"
          ("Failed to load SEG-Y file: " ++ e)]) := by
  rcases h : get_data_from_file fs p with e | d <;>
    simp [load_segy_file, h, Except.toOption]

/-- Witness for C3: loading a missing file clears the data and shows the
error dialog. -/
theorem load_replaces_data_witness :
    (load_segy_file sampleFS (initState "/home") "missing.sgy").1.data = none ∧
    (load_segy_file sampleFS (initState "/home") "missing.sgy").2 =
      [.criticalDialog "Error Loading File"
        ("Failed to load SEG-Y file: " ++ "No such file")] :=
  (load_replaces_data sampleFS (initState "/home") "missing.sgy").2.2
    "No such file" rfl

/-- C4: the watcher's handler invokes the new-file callback exactly on
paths ending in the lowercase suffix `.sgy`; paths ending in the other
dialog-accepted extensions `.segy` and `.SGY` never trigger it. -/
theorem on_created_sgy_only :
    (∀ p, ((on_created p).1).isSome = pyEndsWith p ".sgy") ∧
    (∀ p, pyEndsWith p ".sgy" = true → (on_created p).1 = some p) ∧
    (∀ p, pyEndsWith p ".segy" = true →
      pyEndsWith p ".sgy" = false ∧ (on_created p).1 = none) ∧
    (∀ p, pyEndsWith p ".SGY" = true →
      pyEndsWith p ".sgy" = false ∧ (on_created p).1 = none) ∧
    ".segy" ∈ segyDialogFilterExtensions ∧
    ".SGY" ∈ segyDialogFilterExtensions := by
  refine ⟨?_, ?_, ?_, ?_, by decide, by decide⟩
  · intro p
    by_cases h : pyEndsWith p ".sgy" = true
    · simp [on_created, h]
    · simp only [Bool.not_eq_true] at h
      simp [on_created, h]
  · intro p h
    simp [on_created, h]
  · intro p h
    have hn : pyEndsWith p ".sgy" = false :=
      not_endsWith_sgy h (by decide) (by decide)
    exact ⟨hn, by simp [on_created, hn]⟩
  · intro p h
    have hn : pyEndsWith p ".sgy" = false :=
      not_endsWith_sgy h (by decide) (by decide)
    exact ⟨hn, by simp [on_created, hn]⟩

/-- Witness for C4 at concrete file names. -/
theorem on_created_sgy_only_witness :
    (on_created "shot.sgy").1 = some "shot.sgy" ∧
    (pyEndsWith "shot.segy" ".sgy" = false ∧ (on_created "shot.segy").1 = none) ∧
    (pyEndsWith "shot.SGY" ".sgy" = false ∧ (on_created "shot.SGY").1 = none) :=
  ⟨on_created_sgy_only.2.1 "shot.sgy" (by decide),
   on_created_sgy_only.2.2.1 "shot.segy" (by decide),
   on_created_sgy_only.2.2.2.1 "shot.SGY" (by decide)⟩

/-- C5: `process_new_file` tags the status bar with the file name and the
GPS fix exactly when both returned coordinates are nonzero; a genuine fix
with latitude `0.0` leaves the same (absent) tag as a GPS read failure. -/
theorem process_tag_iff (fs : SegyFS) (st : WinState) (p : String) :
    (∀ gps, statusTags (process_new_file fs gps st p).2 ≠ [] ↔
      (get_current_location gps).1.1 ≠ 0 ∧
        (get_current_location gps).1.2 ≠ 0) ∧
    (∀ d : GnssData, d.lat = some 0 →
      statusTags (process_new_file fs (.returns d) st p).2 = []) ∧
    (∀ msg, statusTags (process_new_file fs (.raises msg) st p).2 = []) := by
  refine ⟨?_, ?_, ?_⟩
  · intro gps
    rw [statusTags_process]
    unfold locationTagEffects
    split
    next hcond => simpa using hcond
    next hcond => simpa using hcond
  · rintro ⟨dla, dlo⟩ h
    simp only at h
    subst h
    rw [statusTags_process]
    cases dlo <;> simp [get_current_location, locationTagEffects]
  · intro msg
    rw [statusTags_process]
    simp [get_current_location, locationTagEffects]

/-- Witness for C5: an equatorial fix produces no tag, exactly like a
failed read. -/
theorem process_tag_iff_witness :
    statusTags (process_new_file sampleFS (.returns ⟨some 0, some 5⟩)
      (initState "/home") "line1.sgy").2 = [] ∧
    statusTags (process_new_file sampleFS (.raises "no port")
      (initState "/home") "line1.sgy").2 = [] :=
  ⟨(process_tag_iff sampleFS (initState "/home") "line1.sgy").2.1
      ⟨some 0, some 5⟩ rfl,
   (process_tag_iff sampleFS (initState "/home") "line1.sgy").2.2 "no port"⟩

/-- C6: on every path delivered by the watcher's signal,
`process_new_file` sets the file text field, loads the file, plots it,
and only then reads the GPS location, in that order. -/
theorem process_pipeline (fs : SegyFS) (gps : GpsRead) (st : WinState)
    (p : String) (d : List (List Rat))
    (h : get_data_from_file fs p = .ok d) :
    (process_new_file fs gps st p).1.filePathText = p ∧
    (process_new_file fs gps st p).1.data = some d ∧
    (process_new_file fs gps st p).1.figure = some d ∧
    (process_new_file fs gps st p).2 =
      .setFileText p :: .statusMessage ("Loaded: " ++ p) 3000 ::
        .canvasDraw ::
        ((get_current_location gps).2.map Effect.consolePrint ++
          locationTagEffects p (get_current_location gps).1.1
            (get_current_location gps).1.2) := by
  rcases hg : get_current_location gps with ⟨⟨lat, lon⟩, console⟩
  simp [process_new_file, load_segy_file, h, plot, hg]

/-- Witness for C6: a watched file is loaded and plotted even though the
GPS read fails. -/
theorem process_pipeline_witness :
    (process_new_file sampleFS (.raises "no port") (initState "/home")
        "line1.sgy").1.filePathText = "line1.sgy" ∧
    (process_new_file sampleFS (.raises "no port") (initState "/home")
        "line1.sgy").1.data = some sampleMatrix ∧
    (process_new_file sampleFS (.raises "no port") (initState "/home")
        "line1.sgy").1.figure = some sampleMatrix ∧
    (process_new_file sampleFS (.raises "no port") (initState "/home")
        "line1.sgy").2 =
      .setFileText "line1.sgy" ::
        .statusMessage ("Loaded: " ++ "line1.sgy") 3000 :: .canvasDraw ::
        ((get_current_location (.raises "no port")).2.map
            Effect.consolePrint ++
          locationTagEffects "line1.sgy"
            (get_current_location (.raises "no port")).1.1
            (get_current_location (.raises "no port")).1.2) :=
  process_pipeline sampleFS (.raises "no port") (initState "/home")
    "line1.sgy" sampleMatrix rfl

/-- C7: in every reachable window state at most one `FolderWatcher` is
running, and every running watcher watches the currently selected
folder. -/
theorem single_watcher_invariant (cwd : String) (st : WinState)
    (h : Reachable cwd st) :
    (runningWatchers st).length ≤ 1 ∧
    ∀ w ∈ st.watchers, w.running = true → w.folder = st.watchFolder := by
  obtain ⟨htail, hhead, _⟩ := reachable_inv cwd st h
  cases hw : st.watchers with
  | nil => simp [runningWatchers, hw]
  | cons w ws =>
    have hws : ∀ u ∈ ws, u.running = false := fun u hu =>
      htail u (by simp [hw, hu])
    have hfil : (ws.filter fun u => u.running) = [] := by
      rw [List.filter_eq_nil_iff]
      intro u hu
      simp [hws u hu]
    refine ⟨?_, ?_⟩
    · cases hr : w.running <;>
        simp [runningWatchers, hw, List.filter_cons, hr, hfil]
    · intro u hu hrun
      rcases List.mem_cons.1 hu with h' | h'
      · subst h'
        exact (hhead u (by simp [hw]) hrun).1
      · exact absurd hrun (by simp [hws u h'])

/-- Witness for C7: the state after checking the watch box at start-up. -/
theorem single_watcher_invariant_witness :
    (runningWatchers checkedState).length ≤ 1 ∧
    ∀ w ∈ checkedState.watchers, w.running = true →
      w.folder = checkedState.watchFolder :=
  single_watcher_invariant "/home" checkedState
    (Reachable.step (initState "/home") (.clickCheckbox envAll)
      Reachable.init)

/-- C8: `plot` without data warns and leaves the whole state (figure and
canvas included) unchanged; the figure is redrawn exactly when data is
present. -/
theorem plot_no_data (st : WinState) :
    (st.data = none →
      plot st =
        (st, [.warnDialog "No Data" "Please load a SEG-Y file first."])) ∧
    (∀ d, st.data = some d →
      plot st = ({ st with figure := some d }, [.canvasDraw])) := by
  refine ⟨fun h => by simp [plot, h], fun d h => by simp [plot, h]⟩

/-- Witness for C8 at the start-up state, which has no data. -/
theorem plot_no_data_witness :
    plot (initState "/home") =
      (initState "/home",
        [.warnDialog "No Data" "Please load a SEG-Y file first."]) :=
  (plot_no_data (initState "/home")).1 rfl

/-- C9: `start_watching` on a nonexistent watch folder warns, resets the
checkbox, constructs no `FolderWatcher` (the watcher list keeps exactly
its folders) and starts no watching. -/
theorem start_watching_missing_folder (env : Env) (st : WinState)
    (h : env.pathExists st.watchFolder = false) :
    (start_watching env st).2.head? =
      some (.warnDialog "Invalid Folder"
        ("The selected folder does not exist: " ++ st.watchFolder)) ∧
    (start_watching env st).1.watchChecked = false ∧
    (start_watching env st).1.watchers.map Watcher.folder =
      st.watchers.map Watcher.folder ∧
    (runningWatchers (start_watching env st).1).length ≤
      (runningWatchers st).length := by
  simp only [start_watching, h, Bool.false_eq_true, if_false]
  cases hchk : st.watchChecked with
  | false =>
    simp [setCheckedFalse, hchk, runningWatchers]
  | true =>
    cases hw : st.watchers with
    | nil =>
      simp [setCheckedFalse, hchk, toggle_unchecked, stop_watching, hw,
        runningWatchers]
    | cons w ws =>
      refine ⟨rfl, ?_, ?_, ?_⟩ <;>
        simp only [setCheckedFalse, hchk, if_true, toggle_unchecked,
          stop_watching, hw, runningWatchers]
      · rfl
      · exact length_filter_cons_le w ws

/-- Witness for C9 at start-up with no folder existing. -/
theorem start_watching_missing_folder_witness :
    (start_watching envNone (initState "/home")).2.head? =
      some (.warnDialog "Invalid Folder"
        ("The selected folder does not exist: " ++
          (initState "/home").watchFolder)) ∧
    (start_watching envNone (initState "/home")).1.watchChecked = false ∧
    (start_watching envNone (initState "/home")).1.watchers.map
        Watcher.folder =
      (initState "/home").watchers.map Watcher.folder ∧
    (runningWatchers (start_watching envNone (initState "/home")).1).length ≤
      (runningWatchers (initState "/home")).length :=
  start_watching_missing_folder envNone (initState "/home") rfl

/-- C10 counterexample: checking the watch box while the watch folder does
not exist reaches (through `toggle_watching`) a state with no watching
active and the checkbox unchecked in which all three folder controls are
nevertheless disabled. -/
theorem toggle_controls_counterexample :
    Reachable "/home" failedCheckState ∧
    runningWatchers failedCheckState = [] ∧
    failedCheckState.watchChecked = false ∧
    failedCheckState.folderPathEnabled = false ∧
    failedCheckState.folderBrowseEnabled = false ∧
    failedCheckState.folderLabelEnabled = false :=
  ⟨Reachable.step (initState "/home") (.clickCheckbox envNone)
      Reachable.init,
   by decide, by decide, by decide, by decide, by decide⟩

/-- C10 amended: while watching is active the three folder controls are
disabled; a user toggle disables all three when checking and re-enables
all three when unchecking; but the controls are not enabled in every
state where watching is inactive (a failed start leaves them
disabled). -/
theorem toggle_controls_amended (cwd : String) (env : Env) (st : WinState)
    (h : Reachable cwd st) :
    (∀ w ∈ runningWatchers st,
      st.folderPathEnabled = false ∧ st.folderBrowseEnabled = false ∧
        st.folderLabelEnabled = false) ∧
    (st.watchChecked = false →
      (clickWatchCheckbox env st).1.folderPathEnabled = false ∧
      (clickWatchCheckbox env st).1.folderBrowseEnabled = false ∧
      (clickWatchCheckbox env st).1.folderLabelEnabled = false) ∧
    (st.watchChecked = true →
      (clickWatchCheckbox env st).1.folderPathEnabled = true ∧
      (clickWatchCheckbox env st).1.folderBrowseEnabled = true ∧
      (clickWatchCheckbox env st).1.folderLabelEnabled = true) := by
  obtain ⟨htail, hhead, hctl⟩ := reachable_inv cwd st h
  refine ⟨?_, ?_, ?_⟩
  · intro w hw
    have hmem := List.mem_filter.1 hw
    have hrun : w.running = true := by simpa using hmem.2
    cases hws : st.watchers with
    | nil => exact absurd hmem.1 (by simp [hws])
    | cons v vs =>
      rcases List.mem_cons.1 (by rw [hws] at hmem; exact hmem.1) with h' | h'
      · subst h'
        exact hctl (hhead w (by simp [hws]) hrun).2
      · exact absurd hrun (by simp [htail w (by simp [hws, h'])])
  · intro hchk
    simp only [clickWatchCheckbox, hchk, Bool.false_eq_true, if_false,
      toggle_watching, if_pos rfl]
    exact ⟨rfl, rfl, rfl⟩
  · intro hchk
    simp only [clickWatchCheckbox, hchk, if_true, toggle_watching,
      if_neg (by decide : ¬(0 = 2))]
    cases hw : st.watchers with
    | nil => simp [toggle_unchecked, stop_watching, hw]
    | cons w ws => simp [toggle_unchecked, stop_watching, hw]

/-- Witness for the amended C10 at the start-up state. -/
theorem toggle_controls_amended_witness :
    (∀ w ∈ runningWatchers (initState "/home"),
      (initState "/home").folderPathEnabled = false ∧
        (initState "/home").folderBrowseEnabled = false ∧
        (initState "/home").folderLabelEnabled = false) ∧
    ((initState "/home").watchChecked = false →
      (clickWatchCheckbox envAll (initState "/home")).1.folderPathEnabled =
          false ∧
      (clickWatchCheckbox envAll (initState "/home")).1.folderBrowseEnabled =
          false ∧
      (clickWatchCheckbox envAll (initState "/home")).1.folderLabelEnabled =
          false) ∧
    ((initState "/home").watchChecked = true →
      (clickWatchCheckbox envAll (initState "/home")).1.folderPathEnabled =
          true ∧
      (clickWatchCheckbox envAll (initState "/home")).1.folderBrowseEnabled =
          true ∧
      (clickWatchCheckbox envAll (initState "/home")).1.folderLabelEnabled =
          true) :=
  toggle_controls_amended "/home" envAll (initState "/home") Reachable.init

end RadarGps
